import Mathlib

/-!
Shallow embedding of `src/semantic_kitti/semantic_kitti_dumper.py`
(class `SemanticKittiDumper`) from the CARLA-Dataset repository.

Conventions of the embedding:
* Python floats are modelled as rationals (`ℚ`); `numpy` `uint16` casts are
  explicit `% 2 ^ 16` reductions on `ℕ`.
* Python's `"{:.<prec>e}".format` scientific-notation formatting is embedded
  as `formatSci` (round-half-to-even, mantissa with `prec` fractional digits,
  two-digit signed exponent), operating on exact rationals.
* Sensors (`carla1s` actors) are identified by natural numbers; their
  per-frame samples (transform, timestamp, camera attributes) are supplied
  by explicit environment arguments.
* File-system effects are reified: directory/file creation becomes a list of
  `FsAction`s, appended text lines become `String` values, scheduled worker
  tasks become a list of `Task`s, and raised Python exceptions become
  `Except.error`.
* 4x4 homogeneous transforms are `Matrix (Fin 4) (Fin 4) ℚ`.
-/

/-- Round-half-to-even of the rational `n / d` (on naturals, `d ≠ 0` at call
sites), the rounding used by Python's float formatting. -/
def rhe (n d : ℕ) : ℕ :=
  let q := n / d
  let r := n % d
  if 2 * r < d then q
  else if d < 2 * r then q + 1
  else if q % 2 = 0 then q else q + 1

/-- Number of decimal digits of `n`, with explicit fuel (structural, so the
kernel can evaluate it). -/
def ndigitsAux : ℕ → ℕ → ℕ
  | 0, _ => 1
  | fuel + 1, n => if n < 10 then 1 else ndigitsAux fuel (n / 10) + 1

/-- Number of decimal digits of `n` (`ndigits 0 = 1`). -/
def ndigits (n : ℕ) : ℕ := ndigitsAux n n

/-- Decide `n / d ≥ 10 ^ e` over the integers, without rational arithmetic. -/
def qGeTenPow (n d : ℕ) (e : ℤ) : Bool :=
  if 0 ≤ e then d * 10 ^ e.toNat ≤ n else d ≤ n * 10 ^ (-e).toNat

/-- Decimal exponent of the positive rational `n / d`: the unique `e` with
`10 ^ e ≤ n / d < 10 ^ (e + 1)`. -/
def decExp (n d : ℕ) : ℤ :=
  let e0 : ℤ := (ndigits n : ℤ) - (ndigits d : ℤ)
  if qGeTenPow n d e0 then e0 else e0 - 1

/-- Exponent field of Python scientific notation: sign then at least two
digits. -/
def expStr (e : ℤ) : String :=
  let sign := if e < 0 then "-" else "+"
  let a := e.natAbs
  sign ++ (if a < 10 then "0" ++ Nat.repr a else Nat.repr a)

/-- Mantissa/exponent rendering of the positive rational `n / d` with `prec`
fractional mantissa digits, with the carry case (mantissa rounding up to
`10 ^ (prec + 1)`) bumping the exponent. -/
def formatSciNat (prec : ℕ) (neg : Bool) (n d : ℕ) : String :=
  let e := decExp n d
  let shift : ℤ := (prec : ℤ) - e
  let m0 := if 0 ≤ shift then rhe (n * 10 ^ shift.toNat) d else rhe n (d * 10 ^ (-shift).toNat)
  let me := if m0 = 10 ^ (prec + 1) then (10 ^ prec, e + 1) else (m0, e)
  let s := Nat.repr me.1
  (if neg then "-" else "") ++ s.take 1 ++ "." ++ s.drop 1 ++ "e" ++ expStr me.2

/-- Embedding of Python's `"{:.<prec>e}".format(x)` on an exact rational. -/
def formatSci (prec : ℕ) (x : ℚ) : String :=
  if x = 0 then "0." ++ String.mk (List.replicate prec '0') ++ "e+00"
  else formatSciNat prec (decide (x < 0)) x.num.natAbs x.den

/-- Index of the last occurrence of `c` in `cs`, if any. -/
def last_index_of (cs : List Char) (c : Char) : Option ℕ :=
  (cs.enum.filterMap fun p => if p.2 = c then some p.1 else none).getLast?

/-- Embedding of `os.path.splitext(p)[1]` (POSIX `splitext`): the extension is
the suffix from the last dot, provided that dot lies after the last path
separator and some earlier character of the basename is not a dot (so names
made only of leading dots, like `.bashrc`, have no extension). -/
def splitext_ext (p : String) : String :=
  let cs := p.toList
  let sepIndex : ℤ := ((last_index_of cs '/').map fun n => (n : ℤ)).getD (-1)
  match last_index_of cs '.' with
  | none => ""
  | some dotIndex =>
      if sepIndex < (dotIndex : ℤ) then
        if (List.range' (sepIndex + 1).toNat (dotIndex - (sepIndex + 1).toNat)).any
            (fun i => cs.getD i '.' != '.') then
          String.mk (cs.drop dotIndex)
        else ""
      else ""

namespace SemanticKittiDumper

/-- Variants of `DatasetDumper.Bind` registered by the dumper: each pairs a
sensor id with its output path(s), mirroring the dataclasses `CameraBind`,
`SemanticLidarBind`, `TimestampBind`, `PoseBind` and `CalibTrBind`. -/
inductive Bind where
  | camera (sensor : ℕ) (data_path : String)
  | semanticLidar (sensor : ℕ) (data_path : String) (labels_path : String)
  | timestamp (sensor : ℕ) (data_path : String)
  | pose (sensor : ℕ) (data_path : String)
  | calibTr (sensor : ℕ) (data_path : String)
deriving DecidableEq

/-- The `data_path` field shared by every bind variant. -/
def Bind.data_path : Bind → String
  | .camera _ p => p
  | .semanticLidar _ p _ => p
  | .timestamp _ p => p
  | .pose _ p => p
  | .calibTr _ p => p

/-- Test for `isinstance(bind, PoseBind)`. -/
def Bind.isPose : Bind → Bool
  | .pose _ _ => true
  | _ => false

/-- Test for `isinstance(bind, CalibTrBind)`. -/
def Bind.isCalibTr : Bind → Bool
  | .calibTr _ _ => true
  | _ => false

/-- Embedding of `SemanticKittiDumper.bind_camera`: appends a `CameraBind`
with no validation of the path. -/
def bind_camera (binds : List Bind) (sensor : ℕ) (data_folder : String) : List Bind :=
  binds ++ [Bind.camera sensor data_folder]

/-- Embedding of `SemanticKittiDumper.bind_semantic_lidar`: appends a
`SemanticLidarBind` with no validation of either path. -/
def bind_semantic_lidar (binds : List Bind) (sensor : ℕ)
    (data_folder labels_folder : String) : List Bind :=
  binds ++ [Bind.semanticLidar sensor data_folder labels_folder]

/-- Embedding of `SemanticKittiDumper.bind_timestamp`: raises `ValueError`
when `os.path.splitext(file_path)[1] == ''`, otherwise appends a
`TimestampBind`. -/
def bind_timestamp (binds : List Bind) (sensor : ℕ) (file_path : String) :
    Except String (List Bind) :=
  if splitext_ext file_path = "" then
    Except.error ("Path " ++ file_path ++ " is a folder, not a file.")
  else Except.ok (binds ++ [Bind.timestamp sensor file_path])

/-- Embedding of `SemanticKittiDumper.bind_pose`: raises `ValueError` when the
path has no extension, otherwise appends a `PoseBind` (no check against an
already-registered pose bind). -/
def bind_pose (binds : List Bind) (sensor : ℕ) (file_path : String) :
    Except String (List Bind) :=
  if splitext_ext file_path = "" then
    Except.error ("Path " ++ file_path ++ " is a folder, not a file.")
  else Except.ok (binds ++ [Bind.pose sensor file_path])

/-- Embedding of `SemanticKittiDumper.bind_calib`: raises `ValueError` when
the path has no extension, otherwise appends a `CalibTrBind` (no check against
an already-registered calib bind). -/
def bind_calib (binds : List Bind) (tr_sensor : ℕ) (file_path : String) :
    Except String (List Bind) :=
  if splitext_ext file_path = "" then
    Except.error ("Path " ++ file_path ++ " is a folder, not a file.")
  else Except.ok (binds ++ [Bind.calibTr tr_sensor file_path])

/-- Reified file-system effects of sequence setup. -/
inductive FsAction where
  | makedirs (p : String)
  | createFile (p : String)
deriving DecidableEq

/-- Embedding of `SemanticKittiDumper._setup_content_folder`: for each bind,
a directory is created when its `data_path` has no extension, otherwise an
empty file is created; a `SemanticLidarBind` additionally gets a directory for
its `labels_path` (unconditionally). -/
def setup_content_folder (binds : List Bind) : List FsAction :=
  binds.flatMap fun b =>
    (if splitext_ext b.data_path = "" then [FsAction.makedirs b.data_path]
     else [FsAction.createFile b.data_path]) ++
    (match b with
     | Bind.semanticLidar _ _ lp => [FsAction.makedirs lp]
     | _ => [])

/-- Export tasks submitted to the worker pool by `create_frame` /
`_setup_calib_file`. -/
inductive Task where
  | dumpSemanticLidar (b : Bind)
  | dumpImage (b : Bind)
  | dumpTimestamp (b : Bind)
  | dumpPose (b : Bind)
  | dumpCalib (calib_bind : Bind) (pose_bind : Bind)
deriving DecidableEq

/-- The per-bind dispatch loop of `create_frame`: one task per camera, lidar,
timestamp and pose bind, in registry order; `CalibTrBind`s get no per-frame
task. -/
def frame_tasks (binds : List Bind) : List Task :=
  binds.filterMap fun b =>
    match b with
    | Bind.semanticLidar _ _ _ => some (Task.dumpSemanticLidar b)
    | Bind.camera _ _ => some (Task.dumpImage b)
    | Bind.timestamp _ _ => some (Task.dumpTimestamp b)
    | Bind.pose _ _ => some (Task.dumpPose b)
    | Bind.calibTr _ _ => none

/-- Embedding of `SemanticKittiDumper._setup_calib_file`: takes the first
`CalibTrBind` and the first `PoseBind` of the registry (`next(...)`), raises
`ValueError("Calib bind or pose bind not found")` when either is absent, and
otherwise schedules the calibration dump task. -/
def setup_calib_file (binds : List Bind) : Except String Task :=
  match binds.find? (fun b => b.isCalibTr), binds.find? (fun b => b.isPose) with
  | some calib_bind, some pose_bind => Except.ok (Task.dumpCalib calib_bind pose_bind)
  | _, _ => Except.error ("Calib bind or pose bind not found")

/-- Homogeneous 4x4 transform matrices over exact rationals. -/
abbrev M4 := Matrix (Fin 4) (Fin 4) ℚ

/-- Modelled from the spec: the fixed permutation/sign orientation map
`CoordConverter.CARLA_CAM_TO_KITTI_CAM_ORIENTATION` of the `carla1s.tf`
package (whose source is not in the repository snapshot) — it re-expresses a
CARLA camera transform (x forward, y right, z up) in the KITTI camera
convention (x right, y down, z forward). Only invertibility of this matrix
matters for the theorems below. -/
def CARLA_CAM_TO_KITTI_CAM_ORIENTATION : M4 :=
  Matrix.of ![![0, 1, 0, 0], ![0, 0, -1, 0], ![1, 0, 0, 0], ![0, 0, 0, 1]]

/-- Modelled from the spec: the handedness-flip-only orientation map
`CoordConverter.LEFT_HANDED_TO_RIGHT_HANDED_ORIENTATION` of `carla1s.tf`
(negates the lateral axis, no axis permutation). -/
def LEFT_HANDED_TO_RIGHT_HANDED_ORIENTATION : M4 :=
  Matrix.of ![![1, 0, 0, 0], ![0, -1, 0, 0], ![0, 0, 1, 0], ![0, 0, 0, 1]]

/-- Modelled from the spec: `Coordinate.change_orientation(conv)` re-expresses
a transform under the fixed permutation/sign map `conv` (section 4.1 of the
spec); embedded as multiplication by the orientation matrix. -/
def change_orientation (m conv : M4) : M4 := m * conv

/-- Computable matrix inverse of a 4x4 rational matrix via the adjugate
(coincides with `Matrix.inv` whenever the determinant is nonzero). -/
def minv (m : M4) : M4 := m.det⁻¹ • m.adjugate

/-- Modelled from the spec: `Coordinate.apply_transform(reference)` expresses
the coordinate relative to `reference` rather than to the world (section 4.1
of the spec): composition of the homogeneous matrices against the inverted
reference frame. -/
def apply_transform (m ref : M4) : M4 := minv ref * m

/-- Row-major flattening of the top 3 rows of a 4x4 matrix
(`matrix[:3, :].flatten()`). -/
def flatten3x4 (m : M4) : List ℚ :=
  (List.finRange 3).flatMap fun i => (List.finRange 4).map fun j => m i.castSucc j

/-- The CARLA semantic-class id to KITTI class id remap table
`SemanticKittiDumper.MAPPING_SEG_CARLA_TO_KITTI`, as an association list in
source order. -/
def MAPPING_SEG_CARLA_TO_KITTI : List (ℕ × ℕ) :=
  [(1, 40), (2, 48), (3, 50), (4, 52), (5, 51), (6, 80), (7, 99), (8, 81),
   (9, 70), (10, 72), (11, 0), (12, 30), (13, 31), (14, 10), (15, 18),
   (16, 13), (17, 16), (18, 15), (19, 11), (20, 20), (21, 259), (22, 99),
   (23, 49), (24, 60), (25, 49), (26, 52), (27, 49), (28, 51), (29, 60),
   (30, 44)]

/-- Embedding of `MAPPING_SEG_CARLA_TO_KITTI.get(k)`: `none` models Python's
`None` for a key absent from the dict. -/
def mapping_get (k : ℕ) : Option ℕ :=
  (MAPPING_SEG_CARLA_TO_KITTI.find? fun p => p.1 = k).map Prod.snd

/-- One semantic-lidar point row of `bind.actor.data.content`: position
columns 0..2, semantic class id column 3, object (instance) id column 4. -/
structure LidarPoint where
  x : ℚ
  y : ℚ
  z : ℚ
  seg : ℕ
  oid : ℕ
deriving DecidableEq

/-- Modelled from the spec: `CoordConverter.from_system` of `carla1s.tf`
(source not in the repository snapshot), the standard left-handed to
right-handed coordinate-system conversion (negates the lateral axis). -/
def from_system (p : ℚ × ℚ × ℚ) : ℚ × ℚ × ℚ := (p.1, -p.2.1, p.2.2)

/-- Point processing of `_dump_semantic_lidar`: `Point(x, -y, z)` per row,
converted through `CoordConverter.from_system`, then extended to homogeneous
`(x, y, z, 1.0)` float32 rows. -/
def lidar_points (content : List LidarPoint) : List (ℚ × ℚ × ℚ × ℚ) :=
  content.map fun r =>
    let p := from_system (r.x, -r.y, r.z)
    (p.1, p.2.1, p.2.2, 1)

/-- Label remap step of `_dump_semantic_lidar`:
`np.vectorize(MAPPING_SEG_CARLA_TO_KITTI.get)(seg)`. When every key is
present this yields the remapped column; an absent key yields Python `None`,
which makes the subsequent `astype(np.uint16)` raise — modelled by `none`. -/
def seg_remapped : List LidarPoint → Option (List ℕ)
  | [] => some []
  | r :: rs =>
      match mapping_get r.seg, seg_remapped rs with
      | some v, some vs => some (v :: vs)
      | _, _ => none

/-- Embedding of `_dump_semantic_lidar`: returns the point rows for
`<frame>.bin` and the `(semantic_id, instance_id)` uint16 pairs for
`<frame>.label` (both columns cast with `astype(np.uint16)`, i.e. reduced
`% 2 ^ 16`; the instance id is never passed through the remap table).
A semantic id absent from the remap table raises (`Except.error`) before
either artifact is written: `.get` returns `None` and `astype(np.uint16)`
fails on it, ahead of both `tofile` calls. -/
def dump_semantic_lidar (content : List LidarPoint) :
    Except String (List (ℚ × ℚ × ℚ × ℚ) × List (ℕ × ℕ)) :=
  match seg_remapped content with
  | none => Except.error ("semantic class id not in MAPPING_SEG_CARLA_TO_KITTI")
  | some segs =>
      Except.ok (lidar_points content,
        (segs.zip (content.map LidarPoint.oid)).map fun p => (p.1 % 2 ^ 16, p.2 % 2 ^ 16))

/-- Embedding of `_dump_timestamp` on one frame: when `_timestamp_offset` is
`None` it is first set to this sample's timestamp; the appended line is
`f"{timestamp - offset:.6e}"`. Returns the updated offset and the line. -/
def dump_timestamp (timestamp_offset : Option ℚ) (ts : ℚ) : Option ℚ × String :=
  let off := timestamp_offset.getD ts
  (some off, formatSci 6 (ts - off))

/-- Timestamp lines of a whole sequence, threading `_timestamp_offset`
(reset to `None` at frame 1 by `create_frame`) through the frames. -/
def run_timestamps_from (off : Option ℚ) : List ℚ → List String
  | [] => []
  | t :: ts => (dump_timestamp off t).2 :: run_timestamps_from (dump_timestamp off t).1 ts

/-- Timestamp lines of a sequence started with a fresh (`None`) offset. -/
def run_timestamps (ts : List ℚ) : List String := run_timestamps_from none ts

/-- The `_pose_offset` pair of the dumper: the raw frame-1 transform
(`copy.deepcopy(pose)`) together with `_pose_offset_coordinate`, its
orientation-changed form. The Python object holds them in two attributes that
`_dump_pose` always sets together; the embedding keeps them as one optional
pair. -/
def pose_origin_of (pose : M4) : M4 × M4 :=
  (pose, change_orientation pose CARLA_CAM_TO_KITTI_CAM_ORIENTATION)

/-- The appended pose line for one sample given the stored origin coordinate:
orientation-change the sample transform, compose it against the origin, take
`matrix[:3, :]`, flatten row-major and join the 6-digit-mantissa scientific
encodings with spaces. -/
def pose_line (origin_coordinate pose : M4) : String :=
  String.intercalate " "
    ((flatten3x4 (apply_transform
        (change_orientation pose CARLA_CAM_TO_KITTI_CAM_ORIENTATION)
        origin_coordinate)).map (formatSci 6))

/-- Embedding of `_dump_pose` on one frame: when `_pose_offset` is `None` it
is first set (deep copy of the sample plus its orientation-changed form), then
the line is produced against the stored origin. -/
def dump_pose (pose_offset : Option (M4 × M4)) (pose : M4) :
    Option (M4 × M4) × String :=
  let off := pose_offset.getD (pose_origin_of pose)
  (some off, pose_line off.2 pose)

/-- Pose lines of a whole sequence, threading `_pose_offset` (reset to `None`
at frame 1 by `create_frame`) through the frames. -/
def run_poses_from (off : Option (M4 × M4)) : List M4 → List String
  | [] => []
  | p :: ps => (dump_pose off p).2 :: run_poses_from (dump_pose off p).1 ps

/-- Pose lines of a sequence started with a fresh (`None`) offset. -/
def run_poses (ps : List M4) : List String := run_poses_from none ps

/-- The per-frame dumper state threaded by `create_frame`. -/
structure DumperState where
  binds : List Bind
  current_frame_count : ℕ
  timestamp_offset : Option ℚ
  pose_offset : Option (M4 × M4)

/-- Embedding of `create_frame`: increments the frame counter, and when the
new count is 1 resets both offsets to `None` and runs `_setup_calib_file`
(whose `ValueError` propagates before any per-bind task is submitted, and
whose calibration task is submitted first); then one task per non-calib bind
in registry order. -/
def create_frame (st : DumperState) : Except String (DumperState × List Task) :=
  let count := st.current_frame_count + 1
  if count = 1 then
    match setup_calib_file st.binds with
    | Except.error e => Except.error e
    | Except.ok calibTask =>
        Except.ok ({ st with current_frame_count := count, timestamp_offset := none,
                             pose_offset := none }, calibTask :: frame_tasks st.binds)
  else Except.ok ({ st with current_frame_count := count }, frame_tasks st.binds)

/-- Static data the dumper reads from a sensor actor in `_dump_calib`: its
current transform and the camera attributes `image_size_x`, `image_size_y`
and `fov`. -/
structure SensorData where
  transform : M4
  image_size_x : ℚ
  image_size_y : ℚ
  fov : ℚ

/-- Embedding of the inner `compute_intrinsic_matrix(w, h, fov)` of
`_dump_calib`: `focal = w / (2.0 * np.tan(fov * np.pi / 360.0))`, identity
3x3 with the focal on both diagonal focal terms, principal point
`(w / 2, h / 2)` and `1` in the homogeneous corner. The transcendental map
`fov ↦ tan(fov·π/360)` is not rational; it is abstracted as the `tanHalfDeg`
argument, everything else is exact. -/
def compute_intrinsic_matrix (tanHalfDeg : ℚ → ℚ) (w h fov : ℚ) :
    Matrix (Fin 3) (Fin 3) ℚ :=
  Matrix.of
    ![![w / (2 * tanHalfDeg fov), 0, w / 2],
      ![0, w / (2 * tanHalfDeg fov), h / 2],
      ![0, 0, 1]]

/-- `np.hstack((R, t))`: the extrinsic 3x4 matrix `[R | t]`. -/
def hstack34 (R : Matrix (Fin 3) (Fin 3) ℚ) (t : Fin 3 → ℚ) :
    Matrix (Fin 3) (Fin 4) ℚ :=
  Matrix.of fun i j => if h : (j : ℕ) < 3 then R i ⟨j, h⟩ else t i

/-- Embedding of the inner `compute_projection_matrix(K, R, t)` of
`_dump_calib`: `P = K · [R | t]`. -/
def compute_projection_matrix (K R : Matrix (Fin 3) (Fin 3) ℚ) (t : Fin 3 → ℚ) :
    Matrix (Fin 3) (Fin 4) ℚ :=
  K * hstack34 R t

/-- Top-left 3x3 block `matrix[:3, :3]` of a homogeneous transform. -/
def topLeft3 (m : M4) : Matrix (Fin 3) (Fin 3) ℚ :=
  Matrix.of fun i j => m i.castSucc j.castSucc

/-- Last column `matrix[:3, -1]` of a homogeneous transform. -/
def lastCol3 (m : M4) : Fin 3 → ℚ :=
  fun i => m i.castSucc 3

/-- Row-major flattening of a 3x4 matrix (`for row in P for value in row`). -/
def flattenP (m : Matrix (Fin 3) (Fin 4) ℚ) : List ℚ :=
  (List.finRange 3).flatMap fun i => (List.finRange 4).map fun j => m i j

/-- The camera actors of the registry, in registration order. -/
def camera_actors (binds : List Bind) : List ℕ :=
  binds.filterMap fun b =>
    match b with
    | Bind.camera s _ => some s
    | _ => none

/-- One `P{idx}` line of the calibration file: the source writes
`f"P{idx}:"` immediately followed by the 12 flattened projection-matrix
values in 12-digit-mantissa scientific notation joined by single spaces
(note: no space after the colon), then a newline. -/
def calib_P_line (tanHalfDeg : ℚ → ℚ) (env : ℕ → SensorData) (cam0_coordinate : M4)
    (idx cam : ℕ) : String :=
  let d := env cam
  let K := compute_intrinsic_matrix tanHalfDeg d.image_size_x d.image_size_y d.fov
  let m := apply_transform
    (change_orientation d.transform CARLA_CAM_TO_KITTI_CAM_ORIENTATION) cam0_coordinate
  let P := compute_projection_matrix K (topLeft3 m) (lastCol3 m)
  "P" ++ Nat.repr idx ++ ":" ++ String.intercalate " " ((flattenP P).map (formatSci 12))

/-- The `Tr` line of the calibration file: the lidar transform converted with
the handedness-flip orientation map, composed against the reference camera
coordinate, rows `Tr[:3, :]` flattened; the source writes `"Tr:"` immediately
followed by the joined values (no space after the colon). -/
def calib_Tr_line (env : ℕ → SensorData) (cam0_coordinate : M4) (target : ℕ) : String :=
  let m := apply_transform
    (change_orientation (env target).transform LEFT_HANDED_TO_RIGHT_HANDED_ORIENTATION)
    cam0_coordinate
  "Tr:" ++ String.intercalate " " ((flatten3x4 m).map (formatSci 12))

/-- The camera list of `_dump_calib`: the reference camera (the pose bind's
actor) first, then `set(...)` of the other bound camera actors. Python's set
iteration order over actor objects is unspecified; the embedding fixes it to
first-registration order (deduplicated, reference camera excluded). -/
def calib_cams (binds : List Bind) (cam0 : ℕ) : List ℕ :=
  cam0 :: ((camera_actors binds).filter fun c => c ≠ cam0).dedup

/-- Embedding of `_dump_calib`: the lines appended to the calibration file,
in order — one `P{idx}` line per camera (reference camera as `P0`), then the
`Tr` line. `target` is the calib bind's sensor (the lidar), `cam0` the pose
bind's sensor (the reference camera). -/
def dump_calib (tanHalfDeg : ℚ → ℚ) (env : ℕ → SensorData) (binds : List Bind)
    (target cam0 : ℕ) : List String :=
  let cam0_coordinate :=
    change_orientation (env cam0).transform CARLA_CAM_TO_KITTI_CAM_ORIENTATION
  ((calib_cams binds cam0).enum.map fun ic =>
      calib_P_line tanHalfDeg env cam0_coordinate ic.1 ic.2) ++
    [calib_Tr_line env cam0_coordinate target]

/-- Explicit inverse of `CARLA_CAM_TO_KITTI_CAM_ORIENTATION` (used only to
establish invertibility of the orientation map). -/
def CARLA_CAM_TO_KITTI_CAM_ORIENTATION_INV : M4 :=
  Matrix.of ![![0, 0, 1, 0], ![1, 0, 0, 0], ![0, -1, 0, 0], ![0, 0, 0, 1]]

/-- Concrete tangent oracle used by the concrete calibration runs below:
`tan(90·π/360) = tan(45°) = 1`. -/
def exampleTan : ℚ → ℚ := fun _ => 1

/-- Concrete sensor environment for the calibration counterexample: sensor 0
is the reference camera at the world origin with attributes
`(w, h, fov) = (2, 2, 90)`; every other sensor (the lidar) carries the
transform that the handedness flip sends onto the camera orientation map, so
every composed extrinsic is the identity. -/
def exampleEnv : ℕ → SensorData
  | 0 => ⟨1, 2, 2, 90⟩
  | _ + 1 => ⟨CARLA_CAM_TO_KITTI_CAM_ORIENTATION * LEFT_HANDED_TO_RIGHT_HANDED_ORIENTATION,
              2, 2, 90⟩

/-- The pose line encoding "reference frame maps to itself": the flattened
top 3 rows of the 4x4 identity (identity rotation, zero translation) in
6-digit-mantissa scientific notation. -/
def identity_pose_line : String :=
  "1.000000e+00 0.000000e+00 0.000000e+00 0.000000e+00 " ++
  "0.000000e+00 1.000000e+00 0.000000e+00 0.000000e+00 " ++
  "0.000000e+00 0.000000e+00 1.000000e+00 0.000000e+00"

theorem ock_mul_inv :
    CARLA_CAM_TO_KITTI_CAM_ORIENTATION * CARLA_CAM_TO_KITTI_CAM_ORIENTATION_INV = 1 := by
  ext i j
  fin_cases i <;> fin_cases j <;>
    simp [CARLA_CAM_TO_KITTI_CAM_ORIENTATION, CARLA_CAM_TO_KITTI_CAM_ORIENTATION_INV,
      Matrix.mul_apply, Fin.sum_univ_four, Matrix.one_apply, Matrix.vecHead, Matrix.vecTail]

theorem olr_mul_olr :
    LEFT_HANDED_TO_RIGHT_HANDED_ORIENTATION * LEFT_HANDED_TO_RIGHT_HANDED_ORIENTATION = 1 := by
  ext i j
  fin_cases i <;> fin_cases j <;>
    simp [LEFT_HANDED_TO_RIGHT_HANDED_ORIENTATION, Matrix.mul_apply,
      Fin.sum_univ_four, Matrix.one_apply, Matrix.vecHead, Matrix.vecTail]

theorem det_ock_ne_zero : (CARLA_CAM_TO_KITTI_CAM_ORIENTATION).det ≠ 0 := by
  have h : CARLA_CAM_TO_KITTI_CAM_ORIENTATION.det * CARLA_CAM_TO_KITTI_CAM_ORIENTATION_INV.det = 1 := by
    rw [← Matrix.det_mul, ock_mul_inv, Matrix.det_one]
  intro h0
  rw [h0, zero_mul] at h
  exact zero_ne_one h

theorem minv_mul_self (m : M4) (h : m.det ≠ 0) : minv m * m = 1 := by
  rw [minv, Matrix.smul_mul, Matrix.adjugate_mul, smul_smul, inv_mul_cancel₀ h, one_smul]

theorem apply_transform_self (m : M4) (h : m.det ≠ 0) : apply_transform m m = 1 :=
  minv_mul_self m h

theorem run_timestamps_from_some (o : ℚ) (l : List ℚ) :
    run_timestamps_from (some o) l = l.map fun t => formatSci 6 (t - o) := by
  induction l with
  | nil => rfl
  | cons t ts ih => simp [run_timestamps_from, dump_timestamp, ih]

theorem run_timestamps_cons (t1 : ℚ) (rest : List ℚ) :
    run_timestamps (t1 :: rest) =
      formatSci 6 (t1 - t1) :: rest.map fun t => formatSci 6 (t - t1) := by
  rw [run_timestamps, run_timestamps_from, ← run_timestamps_from_some t1 rest]
  rfl

theorem run_poses_from_some (off : M4 × M4) (l : List M4) :
    run_poses_from (some off) l = l.map fun p => pose_line off.2 p := by
  induction l with
  | nil => rfl
  | cons p ps ih => simp [run_poses_from, dump_pose, ih]

theorem run_poses_cons (p1 : M4) (rest : List M4) :
    run_poses (p1 :: rest) =
      pose_line (pose_origin_of p1).2 p1 :: rest.map fun p => pose_line (pose_origin_of p1).2 p := by
  rw [run_poses, run_poses_from, ← run_poses_from_some (pose_origin_of p1) rest]
  rfl

theorem seg_remapped_none (content : List LidarPoint) (r : LidarPoint)
    (hr : r ∈ content) (habs : mapping_get r.seg = none) :
    seg_remapped content = none := by
  induction content with
  | nil => cases hr
  | cons c cs ih =>
      rcases List.mem_cons.mp hr with h | h
      · subst h
        simp [seg_remapped, habs]
      · cases hc : mapping_get c.seg with
        | none => simp [seg_remapped, hc]
        | some v => simp [seg_remapped, hc, ih h]

theorem frame_tasks_no_calib (binds : List Bind) (cb pb : Bind) :
    Task.dumpCalib cb pb ∉ frame_tasks binds := by
  intro hmem
  rw [frame_tasks, List.mem_filterMap] at hmem
  obtain ⟨b, -, hb⟩ := hmem
  cases b <;> simp at hb

theorem setup_calib_file_ok_shape (binds : List Bind) (t : Task)
    (h : setup_calib_file binds = Except.ok t) :
    ∃ cb pb, t = Task.dumpCalib cb pb ∧
      binds.find? (fun b => b.isCalibTr) = some cb ∧
      binds.find? (fun b => b.isPose) = some pb := by
  rw [setup_calib_file] at h
  cases hc : binds.find? (fun b => b.isCalibTr) with
  | none => rw [hc] at h; cases h
  | some cb =>
      cases hp : binds.find? (fun b => b.isPose) with
      | none => rw [hc, hp] at h; cases h
      | some pb =>
          rw [hc, hp] at h
          exact ⟨cb, pb, (Except.ok.injEq _ _).mp h.symm ▸ rfl, rfl, rfl⟩

/-- C2: for every sequence, the timestamp line of frame `k` is the
6-digit-mantissa scientific encoding of (sensor timestamp at frame `k` minus
sensor timestamp at frame 1), appended one line per frame, and frame 1's line
is exactly `0.000000e+00`. -/
theorem timestamp_lines_relative_to_frame1 (t1 : ℚ) (rest : List ℚ) :
    (run_timestamps (t1 :: rest)).head? = some ("0.000000e+00")
    ∧ ∀ k : ℕ, (run_timestamps (t1 :: rest))[k]? =
        ((t1 :: rest)[k]?).map fun t => formatSci 6 (t - t1) := by
  rw [run_timestamps_cons]
  constructor
  · rw [sub_self]
    rfl
  · intro k
    cases k with
    | zero => simp [sub_self]
    | succ k => simp [List.getElem?_map]

/-- C4: a lidar frame containing a semantic class id absent from
`MAPPING_SEG_CARLA_TO_KITTI` makes the label export raise (`dict.get` yields
`None` and `astype(np.uint16)` fails on it) before anything is written; no
sentinel class id is emitted. -/
theorem missing_semantic_id_fails_label_export (content : List LidarPoint)
    (r : LidarPoint) (hr : r ∈ content) (habs : mapping_get r.seg = none) :
    dump_semantic_lidar content
      = Except.error ("semantic class id not in MAPPING_SEG_CARLA_TO_KITTI") := by
  rw [dump_semantic_lidar, seg_remapped_none content r hr habs]

theorem missing_semantic_id_fails_label_export_witness :
    ((⟨0, 0, 0, 31, 5⟩ : LidarPoint) ∈ [(⟨0, 0, 0, 31, 5⟩ : LidarPoint)]
     ∧ mapping_get (⟨0, 0, 0, 31, 5⟩ : LidarPoint).seg = none)
    ∧ dump_semantic_lidar [⟨0, 0, 0, 31, 5⟩]
        = Except.error ("semantic class id not in MAPPING_SEG_CARLA_TO_KITTI") :=
  ⟨⟨List.mem_singleton.mpr rfl, by decide⟩,
   missing_semantic_id_fails_label_export [⟨0, 0, 0, 31, 5⟩] ⟨0, 0, 0, 31, 5⟩
     (List.mem_singleton.mpr rfl) (by decide)⟩

/-- C10: in the label artifact both the remapped semantic id and the instance
id are written through `astype(np.uint16)`, i.e. reduced `% 2 ^ 16` (65536
becomes 0); an instance id below `2 ^ 16` passes through unchanged, and the
instance column is taken from the raw `oid` column, never from the remap
table. -/
theorem labels_cast_uint16 (content : List LidarPoint) (segs : List ℕ)
    (h : seg_remapped content = some segs) :
    dump_semantic_lidar content
      = Except.ok (lidar_points content,
          (segs.zip (content.map LidarPoint.oid)).map fun p => (p.1 % 2 ^ 16, p.2 % 2 ^ 16))
    ∧ (∀ (k : ℕ) (s o : ℕ), (segs.zip (content.map LidarPoint.oid))[k]? = some (s, o) → o < 2 ^ 16 →
        ((segs.zip (content.map LidarPoint.oid)).map
            fun p => (p.1 % 2 ^ 16, p.2 % 2 ^ 16))[k]? = some (s % 2 ^ 16, o))
    ∧ dump_semantic_lidar [⟨0, 0, 0, 14, 65536⟩] = Except.ok ([(0, 0, 0, 1)], [(10, 0)]) := by
  refine ⟨?_, ?_, rfl⟩
  · rw [dump_semantic_lidar, h]
  · intro k s o hk ho
    rw [List.getElem?_map, hk]
    simp [Nat.mod_eq_of_lt ho]
    exact ho

theorem labels_cast_uint16_witness :
    seg_remapped [(⟨0, 0, 0, 14, 65536⟩ : LidarPoint)] = some [10]
    ∧ (dump_semantic_lidar [(⟨0, 0, 0, 14, 65536⟩ : LidarPoint)]
        = Except.ok (lidar_points [(⟨0, 0, 0, 14, 65536⟩ : LidarPoint)],
            (([10] : List ℕ).zip ([(⟨0, 0, 0, 14, 65536⟩ : LidarPoint)].map LidarPoint.oid)).map
              fun p => (p.1 % 2 ^ 16, p.2 % 2 ^ 16))
       ∧ (∀ (k : ℕ) (s o : ℕ),
            (([10] : List ℕ).zip ([(⟨0, 0, 0, 14, 65536⟩ : LidarPoint)].map LidarPoint.oid))[k]?
              = some (s, o) → o < 2 ^ 16 →
            ((([10] : List ℕ).zip ([(⟨0, 0, 0, 14, 65536⟩ : LidarPoint)].map LidarPoint.oid)).map
                fun p => (p.1 % 2 ^ 16, p.2 % 2 ^ 16))[k]? = some (s % 2 ^ 16, o))
       ∧ dump_semantic_lidar [⟨0, 0, 0, 14, 65536⟩] = Except.ok ([(0, 0, 0, 1)], [(10, 0)])) :=
  ⟨rfl, labels_cast_uint16 [⟨0, 0, 0, 14, 65536⟩] [10] rfl⟩

/-- C7: `bind_timestamp`, `bind_pose` and `bind_calib` raise a configuration
error (and register nothing) on a file path with no extension, and register
the bind without error on a path with an extension. -/
theorem file_path_extension_validation (binds : List Bind) (s : ℕ) (p q : String)
    (hp : splitext_ext p = "") (hq : splitext_ext q ≠ "") :
    (bind_timestamp binds s p = Except.error ("Path " ++ p ++ " is a folder, not a file.")
     ∧ bind_pose binds s p = Except.error ("Path " ++ p ++ " is a folder, not a file.")
     ∧ bind_calib binds s p = Except.error ("Path " ++ p ++ " is a folder, not a file."))
    ∧ (bind_timestamp binds s q = Except.ok (binds ++ [Bind.timestamp s q])
       ∧ bind_pose binds s q = Except.ok (binds ++ [Bind.pose s q])
       ∧ bind_calib binds s q = Except.ok (binds ++ [Bind.calibTr s q])) := by
  refine ⟨⟨?_, ?_, ?_⟩, ⟨?_, ?_, ?_⟩⟩ <;>
    simp [bind_timestamp, bind_pose, bind_calib, hp, hq]

theorem file_path_extension_validation_witness :
    (splitext_ext ("timestamps") = "" ∧ splitext_ext ("timestamps.txt") ≠ "")
    ∧ ((bind_timestamp [] 0 ("timestamps")
          = Except.error ("Path " ++ "timestamps" ++ " is a folder, not a file.")
        ∧ bind_pose [] 0 ("timestamps")
          = Except.error ("Path " ++ "timestamps" ++ " is a folder, not a file.")
        ∧ bind_calib [] 0 ("timestamps")
          = Except.error ("Path " ++ "timestamps" ++ " is a folder, not a file."))
       ∧ (bind_timestamp [] 0 ("timestamps.txt")
            = Except.ok ([] ++ [Bind.timestamp 0 ("timestamps.txt")])
          ∧ bind_pose [] 0 ("timestamps.txt")
            = Except.ok ([] ++ [Bind.pose 0 ("timestamps.txt")])
          ∧ bind_calib [] 0 ("timestamps.txt")
            = Except.ok ([] ++ [Bind.calibTr 0 ("timestamps.txt")]))) :=
  ⟨⟨by decide, by decide⟩,
   file_path_extension_validation [] 0 ("timestamps") ("timestamps.txt") (by decide) (by decide)⟩

/-- C9: `bind_camera` and `bind_semantic_lidar` accept any path without
validation (no extension check, no error), and sequence setup decides
folder-versus-file solely by the extension of each bind's `data_path` — so a
camera or lidar bound to a path that has an extension silently gets an empty
file instead of an output folder. -/
theorem camera_lidar_binds_unvalidated (binds : List Bind) (s ls : ℕ)
    (anyPath lp fileLike : String) (hext : splitext_ext fileLike ≠ "") :
    bind_camera binds s anyPath = binds ++ [Bind.camera s anyPath]
    ∧ bind_semantic_lidar binds ls anyPath lp = binds ++ [Bind.semanticLidar ls anyPath lp]
    ∧ setup_content_folder [Bind.camera s fileLike] = [FsAction.createFile fileLike]
    ∧ setup_content_folder [Bind.semanticLidar ls fileLike lp]
        = [FsAction.createFile fileLike, FsAction.makedirs lp] := by
  refine ⟨rfl, rfl, ?_, ?_⟩ <;> simp [setup_content_folder, Bind.data_path, hext]

theorem camera_lidar_binds_unvalidated_witness :
    splitext_ext ("image_2.d") ≠ ""
    ∧ (bind_camera [] 0 ("image_2") = [] ++ [Bind.camera 0 ("image_2")]
       ∧ bind_semantic_lidar [] 1 ("image_2") ("labels")
           = [] ++ [Bind.semanticLidar 1 ("image_2") ("labels")]
       ∧ setup_content_folder [Bind.camera 0 ("image_2.d")]
           = [FsAction.createFile ("image_2.d")]
       ∧ setup_content_folder [Bind.semanticLidar 1 ("image_2.d") ("labels")]
           = [FsAction.createFile ("image_2.d"), FsAction.makedirs ("labels")]) :=
  ⟨by decide, camera_lidar_binds_unvalidated [] 0 1 ("image_2") ("labels") ("image_2.d") (by decide)⟩

/-- C5 counterexample: registering a second pose bind (or a second calib bind)
is accepted and appended — not rejected — refuting the claim that the registry
enforces at most one of each. -/
theorem second_calib_or_pose_bind_accepted :
    bind_pose [Bind.pose 0 ("poses.txt")] 1 ("poses2.txt")
      = Except.ok [Bind.pose 0 ("poses.txt"), Bind.pose 1 ("poses2.txt")]
    ∧ bind_calib [Bind.calibTr 0 ("calib.txt")] 1 ("calib2.txt")
      = Except.ok [Bind.calibTr 0 ("calib.txt"), Bind.calibTr 1 ("calib2.txt")] :=
  ⟨rfl, rfl⟩

/-- C5 (amended): duplicate pose/calib binds are accepted and appended;
`_setup_calib_file` selects the first calibration bind and the first pose
bind in registration order, and fails fast when either is missing at
frame 1. -/
theorem bind_registry_duplicates_and_first_selection (binds : List Bind) (s : ℕ)
    (p q : String) (hp : splitext_ext p ≠ "") (hq : splitext_ext q ≠ "") :
    bind_pose binds s p = Except.ok (binds ++ [Bind.pose s p])
    ∧ bind_calib binds s q = Except.ok (binds ++ [Bind.calibTr s q])
    ∧ (∀ cb pb, binds.find? (fun b => b.isCalibTr) = some cb →
        binds.find? (fun b => b.isPose) = some pb →
        setup_calib_file binds = Except.ok (Task.dumpCalib cb pb))
    ∧ ((binds.find? (fun b => b.isCalibTr) = none ∨ binds.find? (fun b => b.isPose) = none) →
        setup_calib_file binds = Except.error ("Calib bind or pose bind not found")) := by
  refine ⟨by simp [bind_pose, hp], by simp [bind_calib, hq], ?_, ?_⟩
  · intro cb pb hc hpo
    rw [setup_calib_file, hc, hpo]
  · rintro (h | h)
    · rw [setup_calib_file, h]
    · rw [setup_calib_file, h]
      cases binds.find? (fun b => b.isCalibTr) <;> rfl

theorem bind_registry_duplicates_and_first_selection_witness :
    (splitext_ext ("poses2.txt") ≠ "" ∧ splitext_ext ("calib2.txt") ≠ "")
    ∧ (bind_pose [Bind.pose 0 ("poses.txt"), Bind.calibTr 1 ("calib.txt")] 2 ("poses2.txt")
         = Except.ok ([Bind.pose 0 ("poses.txt"), Bind.calibTr 1 ("calib.txt")]
             ++ [Bind.pose 2 ("poses2.txt")])
       ∧ bind_calib [Bind.pose 0 ("poses.txt"), Bind.calibTr 1 ("calib.txt")] 2 ("calib2.txt")
         = Except.ok ([Bind.pose 0 ("poses.txt"), Bind.calibTr 1 ("calib.txt")]
             ++ [Bind.calibTr 2 ("calib2.txt")])
       ∧ (∀ cb pb,
            [Bind.pose 0 ("poses.txt"), Bind.calibTr 1 ("calib.txt")].find?
              (fun b => b.isCalibTr) = some cb →
            [Bind.pose 0 ("poses.txt"), Bind.calibTr 1 ("calib.txt")].find?
              (fun b => b.isPose) = some pb →
            setup_calib_file [Bind.pose 0 ("poses.txt"), Bind.calibTr 1 ("calib.txt")]
              = Except.ok (Task.dumpCalib cb pb))
       ∧ (([Bind.pose 0 ("poses.txt"), Bind.calibTr 1 ("calib.txt")].find?
              (fun b => b.isCalibTr) = none
           ∨ [Bind.pose 0 ("poses.txt"), Bind.calibTr 1 ("calib.txt")].find?
              (fun b => b.isPose) = none) →
           setup_calib_file [Bind.pose 0 ("poses.txt"), Bind.calibTr 1 ("calib.txt")]
             = Except.error ("Calib bind or pose bind not found"))) :=
  ⟨⟨by decide, by decide⟩,
   bind_registry_duplicates_and_first_selection
     [Bind.pose 0 ("poses.txt"), Bind.calibTr 1 ("calib.txt")] 2
     ("poses2.txt") ("calib2.txt") (by decide) (by decide)⟩

/-- C6: when frame 1 of a sequence begins with the calibration bind or the
pose bind absent from the registry, `create_frame` raises the fatal
configuration error; the `Except.error` result carries no task list, so no
export task of that frame is scheduled. -/
theorem frame1_missing_bind_raises_before_tasks (st : DumperState)
    (h0 : st.current_frame_count = 0)
    (h : st.binds.find? (fun b => b.isCalibTr) = none
         ∨ st.binds.find? (fun b => b.isPose) = none) :
    create_frame st = Except.error ("Calib bind or pose bind not found") := by
  have hcal : setup_calib_file st.binds
      = Except.error ("Calib bind or pose bind not found") := by
    rcases h with h | h
    · rw [setup_calib_file, h]
    · rw [setup_calib_file, h]
      cases st.binds.find? (fun b => b.isCalibTr) <;> rfl
  simp [create_frame, h0, hcal]

theorem frame1_missing_bind_raises_before_tasks_witness :
    ((⟨[Bind.timestamp 0 ("times.txt")], 0, none, none⟩ : DumperState).current_frame_count = 0
     ∧ ((⟨[Bind.timestamp 0 ("times.txt")], 0, none, none⟩ : DumperState).binds.find?
          (fun b => b.isCalibTr) = none
        ∨ (⟨[Bind.timestamp 0 ("times.txt")], 0, none, none⟩ : DumperState).binds.find?
          (fun b => b.isPose) = none))
    ∧ create_frame (⟨[Bind.timestamp 0 ("times.txt")], 0, none, none⟩ : DumperState)
        = Except.error ("Calib bind or pose bind not found") :=
  ⟨⟨rfl, Or.inl rfl⟩,
   frame1_missing_bind_raises_before_tasks ⟨[Bind.timestamp 0 ("times.txt")], 0, none, none⟩
     rfl (Or.inl rfl)⟩

/-- C8: the intrinsic matrix has focal `w / (2·tan(fov·π/360))` on both
diagonal focal terms (the transcendental map `fov ↦ tan(fov·π/360)` is the
`tanHalfDeg` argument), principal point `(w/2, h/2)` and `1` in the
homogeneous corner; in particular at `(w, h, fov) = (1280, 720, 90)` the
focal is `1280 / (2·tan(45°))` and the principal point is `(640, 360)`. -/
theorem intrinsic_matrix_shape (tanHalfDeg : ℚ → ℚ) (w h fov : ℚ) :
    (compute_intrinsic_matrix tanHalfDeg w h fov 0 0 = w / (2 * tanHalfDeg fov)
     ∧ compute_intrinsic_matrix tanHalfDeg w h fov 1 1 = w / (2 * tanHalfDeg fov)
     ∧ compute_intrinsic_matrix tanHalfDeg w h fov 0 2 = w / 2
     ∧ compute_intrinsic_matrix tanHalfDeg w h fov 1 2 = h / 2
     ∧ compute_intrinsic_matrix tanHalfDeg w h fov 2 2 = 1)
    ∧ (compute_intrinsic_matrix tanHalfDeg 1280 720 90 0 0 = 1280 / (2 * tanHalfDeg 90)
       ∧ compute_intrinsic_matrix tanHalfDeg 1280 720 90 0 2 = 640
       ∧ compute_intrinsic_matrix tanHalfDeg 1280 720 90 1 2 = 360) := by
  refine ⟨⟨?_, ?_, ?_, ?_, ?_⟩, ?_, ?_, ?_⟩ <;>
    simp [compute_intrinsic_matrix, Matrix.vecHead, Matrix.vecTail] <;> norm_num

theorem det_chg_one_ne_zero :
    (change_orientation (1 : M4) CARLA_CAM_TO_KITTI_CAM_ORIENTATION).det ≠ 0 := by
  rw [change_orientation, one_mul]
  exact det_ock_ne_zero

/-- C1: for every sequence whose frame-1 pose (after the orientation change)
is invertible, the frame-1 pose line is the identity-composed form (identity
rotation, zero translation), and every frame's pose line equals the line
obtained by re-deriving the pose origin from frame 1 (`pose_origin_of`) and
re-running that frame against it — origin derivation is idempotent. -/
theorem pose_frame1_identity_and_origin_rederivation (p1 : M4) (rest : List M4)
    (hdet : (change_orientation p1 CARLA_CAM_TO_KITTI_CAM_ORIENTATION).det ≠ 0) :
    (run_poses (p1 :: rest)).head? = some identity_pose_line
    ∧ ∀ k : ℕ, (run_poses (p1 :: rest))[k]?
        = ((p1 :: rest)[k]?).map (pose_line (pose_origin_of p1).2) := by
  rw [run_poses_cons]
  constructor
  · show some (pose_line (pose_origin_of p1).2 p1) = some identity_pose_line
    rw [pose_line,
      show (pose_origin_of p1).2
        = change_orientation p1 CARLA_CAM_TO_KITTI_CAM_ORIENTATION from rfl,
      apply_transform_self _ hdet]
    decide
  · intro k
    cases k with
    | zero => simp
    | succ k => simp [List.getElem?_map]

theorem pose_frame1_identity_and_origin_rederivation_witness :
    ((change_orientation (1 : M4) CARLA_CAM_TO_KITTI_CAM_ORIENTATION).det ≠ 0)
    ∧ ((run_poses [(1 : M4)]).head? = some identity_pose_line
       ∧ ∀ k : ℕ, (run_poses [(1 : M4)])[k]?
           = (([(1 : M4)] : List M4)[k]?).map (pose_line (pose_origin_of (1 : M4)).2)) :=
  ⟨det_chg_one_ne_zero,
   pose_frame1_identity_and_origin_rederivation 1 [] det_chg_one_ne_zero⟩

theorem example_intrinsic : compute_intrinsic_matrix exampleTan 2 2 90 =
    Matrix.of ![![(1 : ℚ), 0, 1], ![0, 1, 1], ![0, 0, 1]] := by
  ext i j
  fin_cases i <;> fin_cases j <;>
    simp [compute_intrinsic_matrix, exampleTan, Matrix.vecHead, Matrix.vecTail]

theorem example_extrinsic : hstack34 (topLeft3 (1 : M4)) (lastCol3 (1 : M4)) =
    Matrix.of ![![(1 : ℚ), 0, 0, 0], ![0, 1, 0, 0], ![0, 0, 1, 0]] := by decide

theorem example_flatten : flattenP (Matrix.of ![![(1 : ℚ), 0, 1], ![0, 1, 1], ![0, 0, 1]] *
    Matrix.of ![![(1 : ℚ), 0, 0, 0], ![0, 1, 0, 0], ![0, 0, 1, 0]]) =
    [1, 0, 1, 0, 0, 1, 1, 0, 0, 0, 1, 0] := by
  norm_num [flattenP, List.finRange, Matrix.mul_apply, Fin.sum_univ_succ,
    Matrix.vecHead, Matrix.vecTail, Fin.succ]

theorem example_calib_P0 : calib_P_line exampleTan exampleEnv
    (change_orientation (exampleEnv 0).transform CARLA_CAM_TO_KITTI_CAM_ORIENTATION) 0 0 =
    "P0:1.000000000000e+00 0.000000000000e+00 1.000000000000e+00 0.000000000000e+00 " ++
    "0.000000000000e+00 1.000000000000e+00 1.000000000000e+00 0.000000000000e+00 " ++
    "0.000000000000e+00 0.000000000000e+00 1.000000000000e+00 0.000000000000e+00" := by
  have h0 : (exampleEnv 0).transform = 1 := rfl
  have hco : change_orientation (1 : M4) CARLA_CAM_TO_KITTI_CAM_ORIENTATION =
      CARLA_CAM_TO_KITTI_CAM_ORIENTATION := by rw [change_orientation, one_mul]
  rw [calib_P_line, h0, hco, apply_transform, minv_mul_self _ det_ock_ne_zero,
    compute_projection_matrix, example_extrinsic]
  have hattr : (exampleEnv 0).image_size_x = 2 ∧ (exampleEnv 0).image_size_y = 2 ∧
      (exampleEnv 0).fov = 90 := ⟨rfl, rfl, rfl⟩
  rw [hattr.1, hattr.2.1, hattr.2.2, example_intrinsic, example_flatten]
  set_option maxRecDepth 10000 in decide

theorem example_calib_Tr : calib_Tr_line exampleEnv
    (change_orientation (exampleEnv 0).transform CARLA_CAM_TO_KITTI_CAM_ORIENTATION) 1 =
    "Tr:1.000000000000e+00 0.000000000000e+00 0.000000000000e+00 0.000000000000e+00 " ++
    "0.000000000000e+00 1.000000000000e+00 0.000000000000e+00 0.000000000000e+00 " ++
    "0.000000000000e+00 0.000000000000e+00 1.000000000000e+00 0.000000000000e+00" := by
  have h0 : (exampleEnv 0).transform = 1 := rfl
  have hl : change_orientation (exampleEnv 1).transform LEFT_HANDED_TO_RIGHT_HANDED_ORIENTATION =
      CARLA_CAM_TO_KITTI_CAM_ORIENTATION := by
    rw [show (exampleEnv 1).transform =
        CARLA_CAM_TO_KITTI_CAM_ORIENTATION * LEFT_HANDED_TO_RIGHT_HANDED_ORIENTATION from rfl,
      change_orientation, mul_assoc, olr_mul_olr, mul_one]
  rw [calib_Tr_line, hl, h0, change_orientation, one_mul,
    apply_transform, minv_mul_self _ det_ock_ne_zero]
  set_option maxRecDepth 10000 in decide

theorem example_calib_lines : dump_calib exampleTan exampleEnv [] 1 0 =
    ["P0:1.000000000000e+00 0.000000000000e+00 1.000000000000e+00 0.000000000000e+00 " ++
     "0.000000000000e+00 1.000000000000e+00 1.000000000000e+00 0.000000000000e+00 " ++
     "0.000000000000e+00 0.000000000000e+00 1.000000000000e+00 0.000000000000e+00",
     "Tr:1.000000000000e+00 0.000000000000e+00 0.000000000000e+00 0.000000000000e+00 " ++
     "0.000000000000e+00 1.000000000000e+00 0.000000000000e+00 0.000000000000e+00 " ++
     "0.000000000000e+00 0.000000000000e+00 1.000000000000e+00 0.000000000000e+00"] := by
  have h : dump_calib exampleTan exampleEnv [] 1 0 =
      [calib_P_line exampleTan exampleEnv
        (change_orientation (exampleEnv 0).transform CARLA_CAM_TO_KITTI_CAM_ORIENTATION) 0 0,
       calib_Tr_line exampleEnv
        (change_orientation (exampleEnv 0).transform CARLA_CAM_TO_KITTI_CAM_ORIENTATION) 1] := by
    rw [dump_calib]
    simp [calib_cams, camera_actors]
  rw [h, example_calib_P0, example_calib_Tr]

/-- C3 counterexample: a concrete single-camera sequence whose first
calibration line is `P0:` immediately followed by the first value — there is
no space after the colon, so the file does not consist of `'P{i}: '`-prefixed
lines as claimed. -/
theorem calib_no_space_after_colon :
    (dump_calib exampleTan exampleEnv [] 1 0).head? =
      some ("P0:1.000000000000e+00 0.000000000000e+00 1.000000000000e+00 0.000000000000e+00 " ++
        "0.000000000000e+00 1.000000000000e+00 1.000000000000e+00 0.000000000000e+00 " ++
        "0.000000000000e+00 0.000000000000e+00 1.000000000000e+00 0.000000000000e+00")
    ∧ (∀ l, (dump_calib exampleTan exampleEnv [] 1 0).head? = some l →
        l.take 4 = "P0:1" ∧ l.take 4 ≠ "P0: ") := by
  rw [example_calib_lines]
  refine ⟨rfl, ?_⟩
  intro l hl
  cases hl
  constructor
  · set_option maxRecDepth 10000 in decide
  · set_option maxRecDepth 10000 in decide

/-- C3 (amended): the calibration task is scheduled exactly when frame 1
begins (so the file is written once per sequence); the reference (pose-bind)
camera is first (`P0`) and the remaining distinct bound cameras follow (the
embedding fixes Python's unspecified set-iteration order to registration
order); each line is `P{i}:` immediately followed by the 12 space-separated
12-digit-mantissa values (no space after the colon), and the final line is
`Tr:` followed by its 12 values. -/
theorem calib_written_once_structure (tanHalfDeg : ℚ → ℚ) (env : ℕ → SensorData)
    (binds : List Bind) (target cam0 : ℕ) (st st1 : DumperState) (tasks : List Task)
    (hok : create_frame st = Except.ok (st1, tasks)) :
    ((∃ cb pb, Task.dumpCalib cb pb ∈ tasks) ↔ st.current_frame_count = 0)
    ∧ (calib_cams binds cam0).head? = some cam0
    ∧ dump_calib tanHalfDeg env binds target cam0
        = ((calib_cams binds cam0).enum.map fun ic =>
            calib_P_line tanHalfDeg env
              (change_orientation (env cam0).transform CARLA_CAM_TO_KITTI_CAM_ORIENTATION)
              ic.1 ic.2)
          ++ [calib_Tr_line env
              (change_orientation (env cam0).transform CARLA_CAM_TO_KITTI_CAM_ORIENTATION)
              target]
    ∧ (∀ i c co, calib_P_line tanHalfDeg env co i c
        = "P" ++ Nat.repr i ++ ":" ++ String.intercalate " "
            ((flattenP (compute_projection_matrix
               (compute_intrinsic_matrix tanHalfDeg (env c).image_size_x (env c).image_size_y
                 (env c).fov)
               (topLeft3 (apply_transform
                 (change_orientation (env c).transform CARLA_CAM_TO_KITTI_CAM_ORIENTATION) co))
               (lastCol3 (apply_transform
                 (change_orientation (env c).transform CARLA_CAM_TO_KITTI_CAM_ORIENTATION)
                 co)))).map (formatSci 12)))
    ∧ (∀ m : Matrix (Fin 3) (Fin 4) ℚ, ((flattenP m).map (formatSci 12)).length = 12)
    ∧ (∀ m : M4, ((flatten3x4 m).map (formatSci 12)).length = 12) := by
  refine ⟨?_, rfl, rfl, fun i c co => rfl, fun m => rfl, fun m => rfl⟩
  simp only [create_frame] at hok
  by_cases hc : st.current_frame_count + 1 = 1
  · rw [if_pos hc] at hok
    have h0 : st.current_frame_count = 0 := by omega
    cases hcal : setup_calib_file st.binds with
    | error e => rw [hcal] at hok; exact Except.noConfusion hok
    | ok t =>
        rw [hcal] at hok
        obtain ⟨cb, pb, rfl, -, -⟩ := setup_calib_file_ok_shape st.binds t hcal
        simp only [Except.ok.injEq, Prod.mk.injEq] at hok
        constructor
        · intro _
          exact h0
        · intro _
          exact ⟨cb, pb, by rw [← hok.2]; exact List.mem_cons_self _ _⟩
  · rw [if_neg hc] at hok
    simp only [Except.ok.injEq, Prod.mk.injEq] at hok
    constructor
    · rintro ⟨cb, pb, hmem⟩
      rw [← hok.2] at hmem
      exact absurd hmem (frame_tasks_no_calib st.binds cb pb)
    · intro h0
      exact absurd (by rw [h0]) hc

theorem calib_written_once_structure_witness :
    create_frame (⟨[Bind.pose 0 ("poses.txt"), Bind.calibTr 1 ("calib.txt")], 0, none, none⟩ :
        DumperState)
      = Except.ok
          ((⟨[Bind.pose 0 ("poses.txt"), Bind.calibTr 1 ("calib.txt")], 1, none, none⟩ :
             DumperState),
           [Task.dumpCalib (Bind.calibTr 1 ("calib.txt")) (Bind.pose 0 ("poses.txt")),
            Task.dumpPose (Bind.pose 0 ("poses.txt"))])
    ∧ (((∃ cb pb, Task.dumpCalib cb pb ∈
          [Task.dumpCalib (Bind.calibTr 1 ("calib.txt")) (Bind.pose 0 ("poses.txt")),
           Task.dumpPose (Bind.pose 0 ("poses.txt"))]) ↔
        (⟨[Bind.pose 0 ("poses.txt"), Bind.calibTr 1 ("calib.txt")], 0, none, none⟩ :
          DumperState).current_frame_count = 0)
       ∧ (calib_cams [] 0).head? = some 0
       ∧ dump_calib exampleTan exampleEnv [] 1 0
           = ((calib_cams [] 0).enum.map fun ic =>
               calib_P_line exampleTan exampleEnv
                (change_orientation (exampleEnv 0).transform CARLA_CAM_TO_KITTI_CAM_ORIENTATION)
                ic.1 ic.2)
             ++ [calib_Tr_line exampleEnv
                (change_orientation (exampleEnv 0).transform CARLA_CAM_TO_KITTI_CAM_ORIENTATION)
                1]
       ∧ (∀ i c co, calib_P_line exampleTan exampleEnv co i c
           = "P" ++ Nat.repr i ++ ":" ++ String.intercalate " "
               ((flattenP (compute_projection_matrix
                  (compute_intrinsic_matrix exampleTan (exampleEnv c).image_size_x
                    (exampleEnv c).image_size_y (exampleEnv c).fov)
                  (topLeft3 (apply_transform
                    (change_orientation (exampleEnv c).transform
                      CARLA_CAM_TO_KITTI_CAM_ORIENTATION) co))
                  (lastCol3 (apply_transform
                    (change_orientation (exampleEnv c).transform
                      CARLA_CAM_TO_KITTI_CAM_ORIENTATION) co)))).map (formatSci 12)))
       ∧ (∀ m : Matrix (Fin 3) (Fin 4) ℚ, ((flattenP m).map (formatSci 12)).length = 12)
       ∧ (∀ m : M4, ((flatten3x4 m).map (formatSci 12)).length = 12)) :=
  ⟨rfl,
   calib_written_once_structure exampleTan exampleEnv [] 1 0
     ⟨[Bind.pose 0 ("poses.txt"), Bind.calibTr 1 ("calib.txt")], 0, none, none⟩
     ⟨[Bind.pose 0 ("poses.txt"), Bind.calibTr 1 ("calib.txt")], 1, none, none⟩
     [Task.dumpCalib (Bind.calibTr 1 ("calib.txt")) (Bind.pose 0 ("poses.txt")),
      Task.dumpPose (Bind.pose 0 ("poses.txt"))] rfl⟩

end SemanticKittiDumper
